import Mathlib

/-
Shallow embedding of the SST39SF-programmer Arduino firmware
(directory src/arduino/SST39SF-programmer/, the authoritative variant
per the design notes), covering:
  - the sector-programming protocol state machine (program_sector.cpp),
  - the command/error channel and handshake (communication_util.cpp),
  - the flash bus driver pin-level traces (read_write.cpp).

Bytes are modelled as `Nat` values; the cast `(byte)Serial.read()` is
modelled by `% 256` at the read boundary.  Serial output and bus
operations are modelled as explicit event traces.
-/

/-! ## Constants (sst_constants.h, communication_util.h, pinout.h) -/

def SST_SECTOR_SIZE : Nat := 4096

def SST_FLASH_SIZE : Nat := 262144

def SST_NUMBER_SECTORS : Nat := SST_FLASH_SIZE / SST_SECTOR_SIZE

def ACK : Nat := 0x06

def NAK : Nat := 0x15

def MAX_NAK_MESSAGE_LENGTH : Nat := 256

def SECTOR_INDEX_LENGTH_BYTES : Nat := 2

def ADDRESS_BUS_LENGTH : Nat := 18

def DATA_BUS_LENGTH : Nat := 8

def WRITE_ENABLE : Nat := 2

def OUTPUT_ENABLE : Nat := 3

def ADDR0 : Nat := 22

def DQ0 : Nat := 44

/-! ## Protocol state (globals.h) and LED status (communication_util.h) -/

/-- The `ArduinoState` enum from globals.h. -/
inductive ArduinoState
  | WAITING_FOR_COMMAND
  | BEGIN_PROGRAM_SECTOR
  | PROGRAM_SECTOR_GOT_INDEX
  | PROGRAM_SECTOR_INDEX_CONFIRMED
  | PROGRAM_SECTOR_GOT_DATA
  | BEGIN_ERASE_CHIP
  | DONE
deriving DecidableEq

/-- The `LEDStatus` enum from communication_util.h. -/
inductive LEDStatus
  | WAITING_FOR_COMMUNICATION
  | WORKING
  | FINISHED
  | ERROR
deriving DecidableEq

/-- The four states handled by the sector-programming dispatch loop
(the non-default cases of the switch in `processSerialProgramSector`). -/
def isSectorState : ArduinoState → Bool
  | .BEGIN_PROGRAM_SECTOR => true
  | .PROGRAM_SECTOR_GOT_INDEX => true
  | .PROGRAM_SECTOR_INDEX_CONFIRMED => true
  | .PROGRAM_SECTOR_GOT_DATA => true
  | _ => false

/-! ## Hex formatting (communication_util.cpp) -/

/-- `byteToHexLow` from communication_util.cpp: hex character for the low
4 bits of a byte. -/
def byteToHexLow (b : Nat) : Char :=
  let lowBits := b &&& 0x0F
  if lowBits = 0x0 then '0'
  else if lowBits = 0x1 then '1'
  else if lowBits = 0x2 then '2'
  else if lowBits = 0x3 then '3'
  else if lowBits = 0x4 then '4'
  else if lowBits = 0x5 then '5'
  else if lowBits = 0x6 then '6'
  else if lowBits = 0x7 then '7'
  else if lowBits = 0x8 then '8'
  else if lowBits = 0x9 then '9'
  else if lowBits = 0xA then 'A'
  else if lowBits = 0xB then 'B'
  else if lowBits = 0xC then 'C'
  else if lowBits = 0xD then 'D'
  else if lowBits = 0xE then 'E'
  else if lowBits = 0xF then 'F'
  else '?'

/-- `byteToHexHigh` from communication_util.cpp: hex character for the
high 4 bits of a byte. -/
def byteToHexHigh (b : Nat) : Char :=
  byteToHexLow ((b >>> 4) &&& 0x0F)

/-- `byteToHex` from communication_util.cpp: two-character uppercase hex
representation of a byte, high nibble first. -/
def byteToHex (b : Nat) : String :=
  String.mk [byteToHexHigh b, byteToHexLow b]

/-- The bytes of a string, for reasoning about serial frames. -/
def strBytes (s : String) : List Nat :=
  s.data.map Char.toNat

/-- Whether a character is one of the sixteen uppercase hex digits. -/
def isUpperHexDigit (c : Char) : Bool :=
  "0123456789ABCDEF".data.contains c

/-! ## Serial/bus event traces of the sector state machine

The state machine's observable actions are modelled as a list of events:
serial-frame-level output (`ack`, `nak`, echoes) and flash-driver calls
(`busErase`, `busProgram`, `busRead`, data-pin direction changes).  The
pin-level refinement of the flash-driver calls is modelled separately
below (section on read_write.cpp). -/

/-- An observable action of the sector-programming state machine. -/
inductive SMEvent
  | ack
  | nak (msg : String)
  | echoByte (b : Nat)
  | echoBuf (bs : List Nat)
  | setDataOut
  | setDataIn
  | busErase (sectorIndex : Nat)
  | busProgram (addr data : Nat)
  | busRead (addr : Nat)
deriving DecidableEq

/-- Whether an event is a flash bus access (erase, program or read). -/
def isBusAccess : SMEvent → Bool
  | .busErase _ => true
  | .busProgram _ _ => true
  | .busRead _ => true
  | _ => false

/-! ## Sector state-machine handlers (program_sector.cpp) -/

/-- The NAK text built in `getAndValidateSectorIndex` when the decoded
sector index is out of range. -/
def tooLargeMessage (sectorIndex b0 b1 : Nat) : String :=
  "While programming sector, got sector index " ++ toString sectorIndex ++
    ", which is too large." ++ byteToHex b0 ++ byteToHex b1

/-- `getAndValidateSectorIndex` from program_sector.cpp.  `b0` and `b1`
are the two bytes read (in order) by `blockingSerialRead`.  Returns the
emitted events, the new `arduinoState`, and the value stored through the
`sectorIndex` out-parameter. -/
def getAndValidateSectorIndex (b0 b1 : Nat) : List SMEvent × ArduinoState × Nat :=
  let sectorIndex := (b1 <<< 8) ||| b0
  if SST_NUMBER_SECTORS ≤ sectorIndex then
    ([.nak (tooLargeMessage sectorIndex b0 b1)], .WAITING_FOR_COMMAND, sectorIndex)
  else
    ([.ack, .echoByte b0, .echoByte b1], .PROGRAM_SECTOR_GOT_INDEX, sectorIndex)

/-- `confirmSectorIndex` from program_sector.cpp.  `b` is the byte read.
Returns the emitted events and the new `arduinoState`. -/
def confirmSectorIndex (b : Nat) : List SMEvent × ArduinoState :=
  if b = ACK then
    ([], .PROGRAM_SECTOR_INDEX_CONFIRMED)
  else if b = NAK then
    ([], .BEGIN_PROGRAM_SECTOR)
  else
    ([.nak ("While programming sector and waiting for ACK/NAK on echoed sector index, got byte 0x"
        ++ byteToHex b ++ " instead.")], .WAITING_FOR_COMMAND)

/-- The bytes read from the serial input stream `inp` by `n` successive
`blockingSerialRead` calls (each read is cast to a byte). -/
def readBytes (inp : Nat → Nat) (n : Nat) : List Nat :=
  (List.range n).map (fun i => inp i % 256)

/-- `receiveSectorData` from program_sector.cpp: reads `SST_SECTOR_SIZE`
bytes into the sector buffer, echoes the whole buffer back, and moves to
`PROGRAM_SECTOR_GOT_DATA`.  Returns the buffer contents, the emitted
events, and the new `arduinoState`. -/
def receiveSectorData (inp : Nat → Nat) : List Nat × List SMEvent × ArduinoState :=
  let sectorData := readBytes inp SST_SECTOR_SIZE
  (sectorData, [.echoBuf sectorData], .PROGRAM_SECTOR_GOT_DATA)

/-- `confirmSectorData` from program_sector.cpp.  `b` is the byte read and
`s` the current `arduinoState` (unchanged on the ACK path).  Returns the
function's boolean result, the emitted events and the new state. -/
def confirmSectorData (b : Nat) (s : ArduinoState) : Bool × List SMEvent × ArduinoState :=
  if b = ACK then
    (true, [], s)
  else if b = NAK then
    (false, [], .PROGRAM_SECTOR_INDEX_CONFIRMED)
  else
    (false, [.nak ("While programming sector and waiting for ACK/NAK on echoed sector data, got byte 0x"
        ++ byteToHex b ++ " instead.")], .WAITING_FOR_COMMAND)

/-- The error text passed to `fail` by `programSector` when a read-back
byte does not match the payload. -/
def programFailMessage : String :=
  "Programming sector failed: byte read back is not the same as what should have been programmed."

/-- Result of running a handler: either execution continues with a new
`arduinoState`, or `fail` was entered (which never returns). -/
inductive RunResult
  | next (s : ArduinoState)
  | fatal (msg : String)
deriving DecidableEq

/-- The verification loop of `programSector`: index of the first position
`i` (scanning `i = j, j+1, ...` with `fuel` iterations remaining) where
the byte read back from the chip differs from the payload byte. -/
def firstMismatch (start : Nat) (data chip : Nat → Nat) : Nat → Nat → Option Nat
  | 0, _ => none
  | fuel + 1, j =>
      if chip (start + j) ≠ data j then some j
      else firstMismatch start data chip fuel (j + 1)

/-- The `busProgram` events of `programSector`'s programming loop. -/
def programEvents (start : Nat) (sectorData : List Nat) : List SMEvent :=
  (List.range SST_SECTOR_SIZE).map (fun i => .busProgram (start + i) (sectorData.getD i 0))

/-- The `busRead` events of `programSector`'s verification loop, for the
first `n` addresses of the sector. -/
def readEvents (start n : Nat) : List SMEvent :=
  (List.range n).map (fun i => .busRead (start + i))

/-- `programSector` from program_sector.cpp.  `chip` gives the byte that
`readByte` returns at each flash address during the verification loop
(the physical chip contents after erase + program).  Returns the emitted
events and either the next state or the fatal failure. -/
def programSector (sectorIndex : Nat) (sectorData : List Nat) (chip : Nat → Nat) :
    List SMEvent × RunResult :=
  let startAddress := sectorIndex * SST_SECTOR_SIZE
  let preamble : List SMEvent :=
    .setDataOut :: .busErase sectorIndex ::
      (programEvents startAddress sectorData ++ [.setDataIn])
  match firstMismatch startAddress (fun i => sectorData.getD i 0) chip SST_SECTOR_SIZE 0 with
  | none =>
      (preamble ++ readEvents startAddress SST_SECTOR_SIZE ++ [.ack], .next .WAITING_FOR_COMMAND)
  | some i =>
      (preamble ++ readEvents startAddress (i + 1), .fatal programFailMessage)

/-- The behavior of `fail` from communication_util.cpp: sets the error
LED and loops forever; `sends` gives the serial events emitted on the
n-th iteration of the loop, `intervalMs` the delay between iterations. -/
structure FailLoop where
  status : LEDStatus
  sends : Nat → List SMEvent
  intervalMs : Nat

/-- `fail` from communication_util.cpp. -/
def fail (errorMessage : String) : FailLoop :=
  { status := .ERROR
    sends := fun _ => [.nak errorMessage]
    intervalMs := 5000 }

/-- One iteration of the dispatch loop in `processSerialProgramSector`:
the switch on `arduinoState`.  `inp` is the serial input stream consumed
by this iteration, `sectorIndex`/`sectorData` are the loop's local
variables, `chip` the physical chip (used only by `programSector`).
Returns the emitted events, the run result, and the updated locals.
The default case of the switch returns from the loop; it is modelled as a
step that changes nothing (theorems characterise when it is reached). -/
def dispatchStep (s : ArduinoState) (inp : Nat → Nat) (sectorIndex : Nat)
    (sectorData : List Nat) (chip : Nat → Nat) :
    List SMEvent × RunResult × Nat × List Nat :=
  match s with
  | .BEGIN_PROGRAM_SECTOR =>
      let r := getAndValidateSectorIndex (inp 0 % 256) (inp 1 % 256)
      (r.1, .next r.2.1, r.2.2, sectorData)
  | .PROGRAM_SECTOR_GOT_INDEX =>
      let r := confirmSectorIndex (inp 0 % 256)
      (r.1, .next r.2, sectorIndex, sectorData)
  | .PROGRAM_SECTOR_INDEX_CONFIRMED =>
      let r := receiveSectorData inp
      (r.2.1, .next r.2.2, sectorIndex, r.1)
  | .PROGRAM_SECTOR_GOT_DATA =>
      let r := confirmSectorData (inp 0 % 256) .PROGRAM_SECTOR_GOT_DATA
      if r.1 then
        let r2 := programSector sectorIndex sectorData chip
        (r.2.1 ++ r2.1, r2.2, sectorIndex, sectorData)
      else
        (r.2.1, .next r.2.2, sectorIndex, sectorData)
  | s' => ([], .next s', sectorIndex, sectorData)

/-! ## NAK framing and handshake (communication_util.cpp) -/

/-- The bytes of the truncation marker `errorMessagePrefix` declared in
`sendNAKMessage` (without its null terminator, which is not sent). -/
def errorMessagePrefixBytes : List Nat :=
  strBytes "Error too long. Truncated:\n"

/-- `sendNAKMessage` from communication_util.cpp, as the exact byte
sequence written to serial.  `errorMessage` is the byte content of the
caller's text (not including a terminator). -/
def sendNAKMessage (errorMessage : List Nat) : List Nat :=
  let errorMessageLength := errorMessage.length + 1
  if MAX_NAK_MESSAGE_LENGTH < errorMessageLength then
    NAK :: (errorMessagePrefixBytes ++
      errorMessage.take (MAX_NAK_MESSAGE_LENGTH - errorMessagePrefixBytes.length - 1) ++ [0])
  else
    NAK :: (errorMessage ++ [0])

/-- The error text built in `connectToDriver` for an unexpected byte `b`
received during the handshake. -/
def connectionErrorMessage (b : Nat) : String :=
  "\nWhile waiting for connection, got byte 0x" ++
    String.mk [byteToHexHigh b, byteToHexLow b] ++ " instead of 0x06 (ACK).\n"

/-- The NAK frame emitted by `connectToDriver` for an unexpected byte. -/
def handshakeNakFrame (b : Nat) : List Nat :=
  sendNAKMessage (strBytes (connectionErrorMessage b))

/-- The broadcast token written by `connectToDriver` each pass:
`"WAITING"` followed by a null terminator. -/
def waitingBroadcast : List Nat :=
  strBytes "WAITING" ++ [0]

/-- Result of one pass of `connectToDriver`'s outer loop. -/
structure HandshakePass where
  output : List Nat
  connected : Bool
  delayMs : Nat
deriving DecidableEq

/-- One pass of the outer loop of `connectToDriver` from
communication_util.cpp, given the currently buffered input bytes.  An
empty buffer: broadcast and sleep one second.  A leading ACK: return
(connected).  Any other leading byte: emit the NAK frame, discard all
remaining buffered bytes, then broadcast and sleep one second. -/
def handshakePass (buffered : List Nat) : HandshakePass :=
  match buffered with
  | [] => ⟨waitingBroadcast, false, 1000⟩
  | b :: _ =>
      if b = ACK then ⟨[], true, 0⟩
      else ⟨handshakeNakFrame b ++ waitingBroadcast, false, 1000⟩

/-! ## Pin-level flash bus driver (read_write.cpp)

`digitalWrite`/delay calls are modelled as a trace of pin events;
`true` is HIGH, `false` is LOW. -/

/-- A pin-level action of the flash bus driver. -/
inductive PinEvent
  | digitalWrite (pin : Nat) (level : Bool)
  | delayMicroseconds (us : Nat)
  | delayMillis (ms : Nat)
deriving DecidableEq

/-- `setAddressBus` from read_write.cpp: drive each address pin to the
corresponding bit of `address`. -/
def setAddressBus (address : Nat) : List PinEvent :=
  (List.range ADDRESS_BUS_LENGTH).map (fun i => .digitalWrite (ADDR0 + i) (address.testBit i))

/-- `setDataBus` from read_write.cpp: drive each data pin to the
corresponding bit of `data`. -/
def setDataBus (data : Nat) : List PinEvent :=
  (List.range DATA_BUS_LENGTH).map (fun i => .digitalWrite (DQ0 + i) (data.testBit i))

/-- `sendByte` from read_write.cpp: one raw bus write cycle. -/
def sendByte (address data : Nat) : List PinEvent :=
  [.digitalWrite OUTPUT_ENABLE true, .digitalWrite WRITE_ENABLE true, .delayMicroseconds 1]
    ++ setAddressBus address ++ setDataBus data
    ++ [.digitalWrite WRITE_ENABLE false, .delayMicroseconds 1, .digitalWrite WRITE_ENABLE true]

/-- `writeByte` from read_write.cpp: the four-cycle byte-program command
sequence followed by the program-completion wait. -/
def writeByte (address data : Nat) : List PinEvent :=
  sendByte 0x5555 0xAA ++ sendByte 0x2AAA 0x55 ++ sendByte 0x5555 0xA0
    ++ sendByte address data ++ [.delayMicroseconds 25]


/-! ## Helper lemmas -/

theorem decode_little_endian (b0 b1 : Nat) (hb0 : b0 < 256) :
    (b1 <<< 8) ||| b0 = 256 * b1 + b0 := by
  rw [Nat.shiftLeft_eq, Nat.mul_comm]
  have h := (Nat.mul_add_lt_is_or (b := b0) (i := 8) (by omega) b1).symm
  norm_num at h ⊢
  exact h

theorem readBytes_length (inp : Nat → Nat) (n : Nat) : (readBytes inp n).length = n := by
  simp [readBytes]

theorem readBytes_getD (inp : Nat → Nat) (n i : Nat) (h : i < n) :
    (readBytes inp n).getD i 0 = inp i % 256 := by
  simp [readBytes, List.getD_eq_getElem?_getD, List.getElem?_map, List.getElem?_range, h]

/-! ## C2: out-of-range sector index is rejected -/

/-- C2: for every received 2-byte candidate sector index whose decoded
value is at least `SST_NUMBER_SECTORS`, `getAndValidateSectorIndex`
sends a single NAK whose text states the decimal index value directly
followed by ", which is too large.", sets the state to
`WAITING_FOR_COMMAND`, and emits no flash bus access (no erase, program
or read). -/
theorem C2_out_of_range_rejected (b0 b1 : Nat) (hb0 : b0 < 256) (hb1 : b1 < 256)
    (hN : SST_NUMBER_SECTORS ≤ (b1 <<< 8) ||| b0) :
    getAndValidateSectorIndex b0 b1 =
      ([.nak (tooLargeMessage ((b1 <<< 8) ||| b0) b0 b1)], .WAITING_FOR_COMMAND,
        (b1 <<< 8) ||| b0) ∧
    (∃ pre suf : String,
      tooLargeMessage ((b1 <<< 8) ||| b0) b0 b1 =
        pre ++ (toString ((b1 <<< 8) ||| b0) ++ ", which is too large.") ++ suf) ∧
    (getAndValidateSectorIndex b0 b1).1.filter isBusAccess = [] := by
  refine ⟨by simp [getAndValidateSectorIndex, hN], ?_, ?_⟩
  · exact ⟨"While programming sector, got sector index ", byteToHex b0 ++ byteToHex b1,
      by simp [tooLargeMessage, String.append_assoc]⟩
  · simp [getAndValidateSectorIndex, hN, isBusAccess]

/-- Witness for C2 at the spec's scenario index 9999 (bytes 0x0F, 0x27). -/
theorem C2_witness :
    (15 < 256 ∧ 39 < 256 ∧ SST_NUMBER_SECTORS ≤ (39 <<< 8) ||| 15) ∧
    getAndValidateSectorIndex 15 39 =
      ([.nak (tooLargeMessage ((39 <<< 8) ||| 15) 15 39)], .WAITING_FOR_COMMAND,
        (39 <<< 8) ||| 15) :=
  ⟨⟨by decide, by decide, by decide⟩,
    (C2_out_of_range_rejected 15 39 (by decide) (by decide) (by decide)).1⟩

/-! ## C3: sector payload is received in full and echoed byte-for-byte -/

/-- C3: in `PROGRAM_SECTOR_INDEX_CONFIRMED`, the firmware reads exactly
`SST_SECTOR_SIZE` bytes into the sector buffer (the i-th buffer byte is
the i-th byte read from the serial stream), echoes back exactly the
received buffer, and sets the state to `PROGRAM_SECTOR_GOT_DATA`. -/
theorem C3_receive_echoes_payload (inp : Nat → Nat) :
    (receiveSectorData inp).2.1 = [SMEvent.echoBuf (receiveSectorData inp).1] ∧
    (receiveSectorData inp).1.length = SST_SECTOR_SIZE ∧
    (∀ i, i < SST_SECTOR_SIZE → (receiveSectorData inp).1.getD i 0 = inp i % 256) ∧
    (receiveSectorData inp).2.2 = .PROGRAM_SECTOR_GOT_DATA := by
  have hfst : (receiveSectorData inp).1 = readBytes inp SST_SECTOR_SIZE := by
    simp only [receiveSectorData]
  refine ⟨by simp only [receiveSectorData], ?_, ?_, by simp only [receiveSectorData]⟩
  · rw [hfst]
    exact readBytes_length inp SST_SECTOR_SIZE
  · intro i hi
    rw [hfst]
    exact readBytes_getD inp SST_SECTOR_SIZE i hi

/-- Witness for C3 on the constant stream 7. -/
theorem C3_witness :
    (0 < SST_SECTOR_SIZE) ∧
    (receiveSectorData (fun _ => 7)).1.getD 0 0 = 7 % 256 ∧
    (receiveSectorData (fun _ => 7)).1.length = SST_SECTOR_SIZE :=
  ⟨by decide, (C3_receive_echoes_payload (fun _ => 7)).2.2.1 0 (by decide),
    (C3_receive_echoes_payload (fun _ => 7)).2.1⟩

/-! ## C4: in-range index is acknowledged and echoed -/

/-- C4: in `BEGIN_PROGRAM_SECTOR`, the two received bytes are decoded as
a little-endian 16-bit index (first byte low, second byte high); for
every in-range index the firmware sends ACK, echoes the two raw index
bytes verbatim in the order received, and sets the state to
`PROGRAM_SECTOR_GOT_INDEX`. -/
theorem C4_in_range_index_ack_echo (b0 b1 : Nat) (hb0 : b0 < 256) (hb1 : b1 < 256)
    (hlt : (b1 <<< 8) ||| b0 < SST_NUMBER_SECTORS) :
    getAndValidateSectorIndex b0 b1 =
      ([.ack, .echoByte b0, .echoByte b1], .PROGRAM_SECTOR_GOT_INDEX, (b1 <<< 8) ||| b0) ∧
    (b1 <<< 8) ||| b0 = 256 * b1 + b0 := by
  refine ⟨?_, decode_little_endian b0 b1 hb0⟩
  simp [getAndValidateSectorIndex, Nat.not_le.mpr hlt]

/-- Witness for C4 at index 63 = 0x003F (bytes 0x3F, 0x00). -/
theorem C4_witness :
    (63 < 256 ∧ 0 < 256 ∧ (0 <<< 8) ||| 63 < SST_NUMBER_SECTORS) ∧
    getAndValidateSectorIndex 63 0 =
      ([.ack, .echoByte 63, .echoByte 0], .PROGRAM_SECTOR_GOT_INDEX, (0 <<< 8) ||| 63) ∧
    (0 <<< 8) ||| 63 = 256 * 0 + 63 :=
  ⟨⟨by decide, by decide, by decide⟩,
    C4_in_range_index_ack_echo 63 0 (by decide) (by decide) (by decide)⟩

/-! ## C5: a NAK at a confirm checkpoint returns to the prior state -/

/-- C5: receiving a NAK byte in `PROGRAM_SECTOR_GOT_INDEX` sets the state
back to `BEGIN_PROGRAM_SECTOR`, and receiving a NAK byte in
`PROGRAM_SECTOR_GOT_DATA` sets the state back to
`PROGRAM_SECTOR_INDEX_CONFIRMED`; in both transitions no event at all is
emitted, in particular no flash erase, program or read. -/
theorem C5_nak_returns_to_prior_state (s : ArduinoState) :
    confirmSectorIndex NAK = ([], .BEGIN_PROGRAM_SECTOR) ∧
    confirmSectorData NAK s = (false, [], .PROGRAM_SECTOR_INDEX_CONFIRMED) ∧
    (confirmSectorIndex NAK).1.filter isBusAccess = [] ∧
    (confirmSectorData NAK s).2.1.filter isBusAccess = [] := by
  refine ⟨?_, ?_, ?_, ?_⟩ <;> norm_num [confirmSectorIndex, confirmSectorData, ACK, NAK]

/-! ## C9: closure of the sector-programming dispatch loop -/

theorem getAndValidateSectorIndex_state (b0 b1 : Nat) :
    (getAndValidateSectorIndex b0 b1).2.1 = .WAITING_FOR_COMMAND ∨
    (getAndValidateSectorIndex b0 b1).2.1 = .PROGRAM_SECTOR_GOT_INDEX := by
  rw [getAndValidateSectorIndex]
  split <;> simp

theorem confirmSectorIndex_state (b : Nat) :
    (confirmSectorIndex b).2 = .PROGRAM_SECTOR_INDEX_CONFIRMED ∨
    (confirmSectorIndex b).2 = .BEGIN_PROGRAM_SECTOR ∨
    (confirmSectorIndex b).2 = .WAITING_FOR_COMMAND := by
  rw [confirmSectorIndex]
  split <;> [skip; split] <;> simp

theorem confirmSectorData_state (b : Nat) (s : ArduinoState) :
    (confirmSectorData b s).1 = true ∨
    (confirmSectorData b s).2.2 = .PROGRAM_SECTOR_INDEX_CONFIRMED ∨
    (confirmSectorData b s).2.2 = .WAITING_FOR_COMMAND := by
  rw [confirmSectorData]
  split <;> [skip; split] <;> simp

theorem programSector_result (sectorIndex : Nat) (sectorData : List Nat) (chip : Nat → Nat) :
    (programSector sectorIndex sectorData chip).2 = .next .WAITING_FOR_COMMAND ∨
    (programSector sectorIndex sectorData chip).2 = .fatal programFailMessage := by
  rw [programSector]
  split <;> simp

/-- C9: from any of the four sector states, one iteration of the
dispatch loop in `processSerialProgramSector` that continues normally
(does not enter `fail`) leaves the state either in a sector state or in
`WAITING_FOR_COMMAND` — never `BEGIN_ERASE_CHIP` or `DONE` — so whenever
the loop's exit condition (state not a sector state) is reached, the
state is `WAITING_FOR_COMMAND`. -/
theorem C9_dispatch_closure (s : ArduinoState) (inp : Nat → Nat) (sectorIndex : Nat)
    (sectorData : List Nat) (chip : Nat → Nat) (hs : isSectorState s = true) :
    ∀ s', (dispatchStep s inp sectorIndex sectorData chip).2.1 = .next s' →
      (isSectorState s' = true ∨ s' = .WAITING_FOR_COMMAND) ∧
      s' ≠ .BEGIN_ERASE_CHIP ∧ s' ≠ .DONE ∧
      (isSectorState s' = false → s' = .WAITING_FOR_COMMAND) := by
  intro s' h
  have hmem : isSectorState s' = true ∨ s' = .WAITING_FOR_COMMAND := by
    cases s with
    | BEGIN_PROGRAM_SECTOR =>
        rw [dispatchStep] at h
        simp only [RunResult.next.injEq] at h
        rcases getAndValidateSectorIndex_state (inp 0 % 256) (inp 1 % 256) with h1 | h1 <;>
          rw [h1] at h <;> simp [← h, isSectorState]
    | PROGRAM_SECTOR_GOT_INDEX =>
        rw [dispatchStep] at h
        simp only [RunResult.next.injEq] at h
        rcases confirmSectorIndex_state (inp 0 % 256) with h1 | h1 | h1 <;>
          rw [h1] at h <;> simp [← h, isSectorState]
    | PROGRAM_SECTOR_INDEX_CONFIRMED =>
        rw [dispatchStep, receiveSectorData] at h
        simp only [RunResult.next.injEq] at h
        simp [← h, isSectorState]
    | PROGRAM_SECTOR_GOT_DATA =>
        rw [dispatchStep] at h
        split at h
        · dsimp only [] at h
          rcases programSector_result sectorIndex sectorData chip with h1 | h1 <;>
            rw [h1] at h
          · simp only [RunResult.next.injEq] at h
            simp [← h]
          · cases h
        · rename_i hfalse
          simp only [RunResult.next.injEq] at h
          rcases confirmSectorData_state (inp 0 % 256) .PROGRAM_SECTOR_GOT_DATA
            with h1 | h1 | h1
          · rw [h1] at hfalse
            cases hfalse rfl
          · rw [h1] at h
            simp [← h, isSectorState]
          · rw [h1] at h
            simp [← h, isSectorState]
    | WAITING_FOR_COMMAND => simp [isSectorState] at hs
    | BEGIN_ERASE_CHIP => simp [isSectorState] at hs
    | DONE => simp [isSectorState] at hs
  refine ⟨hmem, ?_, ?_, ?_⟩
  · rintro rfl
    rcases hmem with h1 | h1 <;> simp [isSectorState] at h1
  · rintro rfl
    rcases hmem with h1 | h1 <;> simp [isSectorState] at h1
  · intro hfalse
    rcases hmem with h1 | h1
    · rw [h1] at hfalse
      cases hfalse
    · exact h1

/-- Witness for C9: one dispatch iteration from `BEGIN_PROGRAM_SECTOR`
on the all-zero input stream moves to `PROGRAM_SECTOR_GOT_INDEX`. -/
theorem C9_witness :
    (isSectorState .BEGIN_PROGRAM_SECTOR = true) ∧
    ((dispatchStep .BEGIN_PROGRAM_SECTOR (fun _ => 0) 0 [] (fun _ => 0)).2.1 =
      .next .PROGRAM_SECTOR_GOT_INDEX) ∧
    (isSectorState ArduinoState.PROGRAM_SECTOR_GOT_INDEX = true ∨
      ArduinoState.PROGRAM_SECTOR_GOT_INDEX = .WAITING_FOR_COMMAND) :=
  ⟨by decide, by decide,
    (C9_dispatch_closure .BEGIN_PROGRAM_SECTOR (fun _ => 0) 0 [] (fun _ => 0) (by decide)
      .PROGRAM_SECTOR_GOT_INDEX (by decide)).1⟩

/-! ## C1: commit path — erase, program, verify, ACK or fatal halt -/

theorem firstMismatch_none_iff (start : Nat) (data chip : Nat → Nat) :
    ∀ fuel j, firstMismatch start data chip fuel j = none ↔
      ∀ i, j ≤ i → i < j + fuel → chip (start + i) = data i := by
  intro fuel
  induction fuel with
  | zero =>
      intro j
      simp only [firstMismatch, true_iff]
      intro i h1 h2
      omega
  | succ n ih =>
      intro j
      rw [firstMismatch]
      split
      · rename_i hne
        refine iff_of_false (by simp) (fun hall => hne (hall j le_rfl (by omega)))
      · rename_i heq
        push_neg at heq
        rw [ih (j + 1)]
        constructor
        · intro hall i h1 h2
          rcases Nat.eq_or_lt_of_le h1 with h3 | h3
          · rw [← h3]
            exact heq
          · exact hall i h3 (by omega)
        · intro hall i h1 h2
          exact hall i (by omega) (by omega)

theorem ack_not_mem_programEvents (start : Nat) (sectorData : List Nat) :
    SMEvent.ack ∉ programEvents start sectorData := by
  simp [programEvents]

theorem ack_not_mem_readEvents (start n : Nat) :
    SMEvent.ack ∉ readEvents start n := by
  simp [readEvents]

/-- C1: in `PROGRAM_SECTOR_GOT_DATA` on ACK, `programSector` erases the
target sector, programs all `SST_SECTOR_SIZE` payload bytes, then reads
every byte of the sector's address range back.  If every read-back byte
matches the payload it sends ACK and sets the state to
`WAITING_FOR_COMMAND`; if any byte differs it enters `fail` with a fixed
failure description, and `fail` sets the error status and broadcasts
only that NAK at every iteration of its unbounded loop — no success ACK
is ever sent after a verification mismatch. -/
theorem C1_commit_erase_program_verify (sectorIndex : Nat) (sectorData : List Nat)
    (chip : Nat → Nat) :
    ((∀ i, i < SST_SECTOR_SIZE →
        chip (sectorIndex * SST_SECTOR_SIZE + i) = sectorData.getD i 0) →
      programSector sectorIndex sectorData chip =
        (.setDataOut :: .busErase sectorIndex ::
            (programEvents (sectorIndex * SST_SECTOR_SIZE) sectorData ++ [.setDataIn]) ++
          readEvents (sectorIndex * SST_SECTOR_SIZE) SST_SECTOR_SIZE ++ [.ack],
         .next .WAITING_FOR_COMMAND)) ∧
    ((∃ i, i < SST_SECTOR_SIZE ∧
        chip (sectorIndex * SST_SECTOR_SIZE + i) ≠ sectorData.getD i 0) →
      (programSector sectorIndex sectorData chip).2 = .fatal programFailMessage ∧
      SMEvent.ack ∉ (programSector sectorIndex sectorData chip).1 ∧
      (fail programFailMessage).status = .ERROR ∧
      (∀ n, (fail programFailMessage).sends n = [.nak programFailMessage]) ∧
      (∀ n, SMEvent.ack ∉ (fail programFailMessage).sends n)) := by
  constructor
  · intro hmatch
    have hfm : firstMismatch (sectorIndex * SST_SECTOR_SIZE)
        (fun i => sectorData.getD i 0) chip SST_SECTOR_SIZE 0 = none := by
      rw [firstMismatch_none_iff]
      intro i _ h2
      exact hmatch i (by omega)
    rw [programSector]
    rw [hfm]
  · intro hmis
    have hfm : ∃ k, firstMismatch (sectorIndex * SST_SECTOR_SIZE)
        (fun i => sectorData.getD i 0) chip SST_SECTOR_SIZE 0 = some k := by
      cases hres : firstMismatch (sectorIndex * SST_SECTOR_SIZE)
          (fun i => sectorData.getD i 0) chip SST_SECTOR_SIZE 0 with
      | none =>
          rw [firstMismatch_none_iff] at hres
          obtain ⟨i, h1, h2⟩ := hmis
          exact absurd (hres i (by omega) (by omega)) h2
      | some k => exact ⟨k, rfl⟩
    obtain ⟨k, hfm⟩ := hfm
    have hps : programSector sectorIndex sectorData chip =
        (.setDataOut :: .busErase sectorIndex ::
            (programEvents (sectorIndex * SST_SECTOR_SIZE) sectorData ++ [.setDataIn]) ++
          readEvents (sectorIndex * SST_SECTOR_SIZE) (k + 1),
         .fatal programFailMessage) := by
      rw [programSector]
      rw [hfm]
    refine ⟨by rw [hps], ?_, rfl, fun _ => rfl, by simp [fail]⟩
    have h1 := ack_not_mem_programEvents (sectorIndex * SST_SECTOR_SIZE) sectorData
    have h2 := ack_not_mem_readEvents (sectorIndex * SST_SECTOR_SIZE) (k + 1)
    rw [hps]
    simp [List.mem_cons, List.mem_append, h1, h2]

/-- Witness for C1: the match branch on an all-zero payload and chip, and
the mismatch branch on an all-zero payload with an all-one chip. -/
theorem C1_witness :
    ((∀ i, i < SST_SECTOR_SIZE →
        (fun _ => 0 : Nat → Nat) (0 * SST_SECTOR_SIZE + i) = List.getD [] i 0) ∧
      programSector 0 [] (fun _ => 0) =
        (.setDataOut :: .busErase 0 ::
            (programEvents (0 * SST_SECTOR_SIZE) [] ++ [.setDataIn]) ++
          readEvents (0 * SST_SECTOR_SIZE) SST_SECTOR_SIZE ++ [.ack],
         .next .WAITING_FOR_COMMAND)) ∧
    ((∃ i, i < SST_SECTOR_SIZE ∧
        (fun _ => 1 : Nat → Nat) (0 * SST_SECTOR_SIZE + i) ≠ List.getD [] i 0) ∧
      (programSector 0 [] (fun _ => 1)).2 = .fatal programFailMessage ∧
      SMEvent.ack ∉ (programSector 0 [] (fun _ => 1)).1) := by
  have hmatch : ∀ i, i < SST_SECTOR_SIZE →
      (fun _ => 0 : Nat → Nat) (0 * SST_SECTOR_SIZE + i) = List.getD [] i 0 := by
    intro i _
    simp
  have hmis : ∃ i, i < SST_SECTOR_SIZE ∧
      (fun _ => 1 : Nat → Nat) (0 * SST_SECTOR_SIZE + i) ≠ List.getD [] i 0 := by
    refine ⟨0, by norm_num [SST_SECTOR_SIZE], by simp⟩
  have h2 := (C1_commit_erase_program_verify 0 [] (fun _ => 1)).2 hmis
  exact ⟨⟨hmatch, (C1_commit_erase_program_verify 0 [] (fun _ => 0)).1 hmatch⟩,
    ⟨hmis, h2.1, h2.2.1⟩⟩

/-! ## C6: the four-cycle byte-program bus sequence -/

/-- C6: for every address and data byte, `writeByte` issues exactly the
four bus cycles (0x5555,0xAA), (0x2AAA,0x55), (0x5555,0xA0),
(address,data) in this order, where each cycle drives the address and
data buses and then pulses write-enable low for at least 1µs, and after
the fourth cycle waits at least 25µs. -/
theorem C6_writeByte_four_cycles (address data : Nat) :
    writeByte address data =
      sendByte 0x5555 0xAA ++ sendByte 0x2AAA 0x55 ++ sendByte 0x5555 0xA0 ++
        sendByte address data ++ [.delayMicroseconds 25] ∧
    (∀ a d, ∃ pulse : Nat, 1 ≤ pulse ∧
      sendByte a d =
        [.digitalWrite OUTPUT_ENABLE true, .digitalWrite WRITE_ENABLE true,
            .delayMicroseconds 1] ++
          (setAddressBus a ++ setDataBus d) ++
          [.digitalWrite WRITE_ENABLE false, .delayMicroseconds pulse,
            .digitalWrite WRITE_ENABLE true]) ∧
    (∃ pre : List PinEvent, ∃ wait : Nat, 25 ≤ wait ∧
      writeByte address data = pre ++ [.delayMicroseconds wait]) := by
  refine ⟨rfl, ?_, ?_⟩
  · intro a d
    exact ⟨1, le_rfl, by simp [sendByte, List.append_assoc]⟩
  · exact ⟨sendByte 0x5555 0xAA ++ sendByte 0x2AAA 0x55 ++ sendByte 0x5555 0xA0 ++
      sendByte address data, 25, le_rfl, by simp [writeByte, List.append_assoc]⟩

/-! ## C7 and C10: NAK frame bounds and truncation -/

theorem errorMessagePrefixBytes_length : errorMessagePrefixBytes.length = 27 := by
  decide

theorem nak_frame_getLast (x : Nat) (l : List Nat) :
    (x :: (l ++ [0])).getLast? = some 0 := by
  rw [show x :: (l ++ [0]) = (x :: l) ++ [0] from rfl]
  exact List.getLast?_concat _

theorem sendNAKMessage_truncated (text : List Nat)
    (h : MAX_NAK_MESSAGE_LENGTH < text.length + 1) :
    sendNAKMessage text = NAK :: (errorMessagePrefixBytes ++ (text.take 228 ++ [0])) := by
  rw [sendNAKMessage, if_pos h, errorMessagePrefixBytes_length]
  norm_num [MAX_NAK_MESSAGE_LENGTH]

/-- C7: for every error text, the NAK frame emitted by `sendNAKMessage`
is at most 257 bytes and ends with a zero byte; when the text plus its
terminator exceeds 256 bytes the body starts with the literal prefix
"Error too long. Truncated:\n" followed by the 228 text bytes that fit
and a zero terminator, and when it fits the body is the text followed by
its terminator, unmodified. -/
theorem C7_nak_frame_invariant (text : List Nat) :
    (sendNAKMessage text).length ≤ 257 ∧
    (sendNAKMessage text).getLast? = some 0 ∧
    (MAX_NAK_MESSAGE_LENGTH < text.length + 1 →
      sendNAKMessage text = NAK :: (errorMessagePrefixBytes ++ (text.take 228 ++ [0]))) ∧
    (text.length + 1 ≤ MAX_NAK_MESSAGE_LENGTH →
      sendNAKMessage text = NAK :: (text ++ [0])) := by
  by_cases h : MAX_NAK_MESSAGE_LENGTH < text.length + 1
  · have heq := sendNAKMessage_truncated text h
    refine ⟨?_, ?_, fun _ => heq, fun h2 => absurd h (Nat.not_lt.mpr h2)⟩
    · rw [heq]
      have hmin : (text.take 228).length ≤ 228 := by
        simp [List.length_take]
      simp only [List.length_cons, List.length_append, List.length_cons,
        errorMessagePrefixBytes_length, List.length_nil]
      omega
    · rw [heq, ← List.append_assoc]
      exact nak_frame_getLast NAK _
  · have heq : sendNAKMessage text = NAK :: (text ++ [0]) := by
      rw [sendNAKMessage, if_neg h]
    have hlen : text.length + 1 ≤ MAX_NAK_MESSAGE_LENGTH := Nat.not_lt.mp h
    have hmax : MAX_NAK_MESSAGE_LENGTH = 256 := rfl
    refine ⟨?_, ?_, fun h2 => absurd h2 h, fun _ => heq⟩
    · rw [heq]
      simp only [List.length_cons, List.length_append, List.length_nil]
      omega
    · rw [heq]
      exact nak_frame_getLast NAK text

/-- Witness for C7: a 300-byte text is truncated, a 3-byte text passes
through unmodified. -/
theorem C7_witness :
    (MAX_NAK_MESSAGE_LENGTH < (List.replicate 300 66 : List Nat).length + 1 ∧
      sendNAKMessage (List.replicate 300 66) =
        NAK :: (errorMessagePrefixBytes ++ ((List.replicate 300 66 : List Nat).take 228 ++ [0]))) ∧
    ((List.replicate 3 65 : List Nat).length + 1 ≤ MAX_NAK_MESSAGE_LENGTH ∧
      sendNAKMessage (List.replicate 3 65) = NAK :: (List.replicate 3 65 ++ [0])) :=
  ⟨⟨by rw [List.length_replicate]; norm_num [MAX_NAK_MESSAGE_LENGTH],
    (C7_nak_frame_invariant (List.replicate 300 66)).2.2.1
      (by rw [List.length_replicate]; norm_num [MAX_NAK_MESSAGE_LENGTH])⟩,
   ⟨by rw [List.length_replicate]; norm_num [MAX_NAK_MESSAGE_LENGTH],
    (C7_nak_frame_invariant (List.replicate 3 65)).2.2.2
      (by rw [List.length_replicate]; norm_num [MAX_NAK_MESSAGE_LENGTH])⟩⟩

/-- C10: when the caller's text plus terminator exceeds 256 bytes, the
truncated NAK frame is exactly 257 bytes: the 0x15 byte, the 27-byte
prefix "Error too long. Truncated:\n", exactly 228 bytes of the original
text, and one zero terminator. -/
theorem C10_truncated_frame_exact (text : List Nat)
    (h : MAX_NAK_MESSAGE_LENGTH < text.length + 1) :
    (sendNAKMessage text).length = 257 ∧
    sendNAKMessage text = NAK :: (errorMessagePrefixBytes ++ (text.take 228 ++ [0])) ∧
    errorMessagePrefixBytes.length = 27 ∧
    (text.take 228).length = 228 := by
  have heq := sendNAKMessage_truncated text h
  have hlen : 256 < text.length + 1 := h
  have htake : (text.take 228).length = 228 := by
    simp only [List.length_take]
    omega
  refine ⟨?_, heq, errorMessagePrefixBytes_length, htake⟩
  rw [heq]
  simp only [List.length_cons, List.length_append, List.length_nil,
    errorMessagePrefixBytes_length, htake]

/-- Witness for C10 on a 300-byte text. -/
theorem C10_witness :
    (MAX_NAK_MESSAGE_LENGTH < (List.replicate 300 66 : List Nat).length + 1) ∧
    (sendNAKMessage (List.replicate 300 66)).length = 257 ∧
    ((List.replicate 300 66 : List Nat).take 228).length = 228 := by
  have h := C10_truncated_frame_exact (List.replicate 300 66)
    (by rw [List.length_replicate]; norm_num [MAX_NAK_MESSAGE_LENGTH])
  exact ⟨by rw [List.length_replicate]; norm_num [MAX_NAK_MESSAGE_LENGTH], h.1, h.2.2.2⟩

/-! ## C8: handshake rejection of a non-ACK byte -/

theorem strBytes_append (s t : String) : strBytes (s ++ t) = strBytes s ++ strBytes t := by
  simp [strBytes]

theorem byteToHexLow_upper (x : Nat) : isUpperHexDigit (byteToHexLow x) = true := by
  simp only [byteToHexLow]
  have h : x &&& 0x0F < 16 := by
    have h2 : x &&& 0x0F ≤ 0x0F := Nat.and_le_right
    omega
  generalize hx : x &&& 0x0F = lb at h ⊢
  interval_cases lb <;> decide

theorem byteToHexHigh_upper (x : Nat) : isUpperHexDigit (byteToHexHigh x) = true := by
  rw [byteToHexHigh]
  exact byteToHexLow_upper _

theorem connectionErrorMessage_bytes (b : Nat) :
    strBytes (connectionErrorMessage b) =
      strBytes "\nWhile waiting for connection, " ++
        (strBytes "got byte 0x" ++ ([(byteToHexHigh b).toNat, (byteToHexLow b).toNat] ++
          strBytes " instead of 0x06 (ACK).\n")) := by
  have hsplit : strBytes "\nWhile waiting for connection, got byte 0x" =
      strBytes "\nWhile waiting for connection, " ++ strBytes "got byte 0x" := by decide
  rw [connectionErrorMessage, strBytes_append, strBytes_append, hsplit]
  simp [strBytes, List.append_assoc]

theorem connectionErrorMessage_length (b : Nat) :
    (strBytes (connectionErrorMessage b)).length = 68 := by
  have h1 : (strBytes "\nWhile waiting for connection, ").length = 31 := by decide
  have h2 : (strBytes "got byte 0x").length = 11 := by decide
  have h3 : (strBytes " instead of 0x06 (ACK).\n").length = 24 := by decide
  rw [connectionErrorMessage_bytes]
  simp only [List.length_append, List.length_cons, List.length_nil, h1, h2, h3]

/-- C8 counterexample: for the stray byte 0x41, the emitted handshake NAK
frame does not end with the bytes of "got byte 0x41 instead of 0x06
(ACK)." followed by the zero terminator — the actual text carries a
trailing newline before the terminator — so the claimed frame shape is
wrong at this input. -/
theorem C8_counterexample :
    ¬ ((strBytes "got byte 0x41 instead of 0x06 (ACK)." ++ [0]) <:+
        handshakeNakFrame 0x41) := by
  decide

/-- C8 amended: during the handshake, for every received byte `b ≠ 0x06`
the firmware emits the NAK frame `0x15` + text + `0x00`, where the text
names the unexpected byte in two-digit uppercase hex and ends with
"got byte 0xNN instead of 0x06 (ACK).\n" (with a trailing newline before
the terminator, and a leading newline at the start of the text); it
discards all remaining buffered input bytes (they are never acted on,
even if they contain an ACK) and resumes broadcasting "WAITING" plus a
null terminator with a one-second delay each pass until an ACK byte
arrives. -/
theorem C8_handshake_reject_amended (b : Nat) (hb : b < 256) (hne : b ≠ 0x06)
    (rest : List Nat) :
    handshakePass (b :: rest) = ⟨handshakeNakFrame b ++ waitingBroadcast, false, 1000⟩ ∧
    handshakeNakFrame b = NAK :: (strBytes (connectionErrorMessage b) ++ [0]) ∧
    (strBytes "got byte 0x" ++ ([(byteToHexHigh b).toNat, (byteToHexLow b).toNat] ++
      strBytes " instead of 0x06 (ACK).\n")) <:+ strBytes (connectionErrorMessage b) ∧
    (strBytes (connectionErrorMessage b)).head? = some 10 ∧
    isUpperHexDigit (byteToHexHigh b) = true ∧
    isUpperHexDigit (byteToHexLow b) = true ∧
    handshakePass [] = ⟨waitingBroadcast, false, 1000⟩ ∧
    handshakePass (ACK :: rest) = ⟨[], true, 0⟩ ∧
    waitingBroadcast = strBytes "WAITING" ++ [0] := by
  refine ⟨?_, ?_, ?_, ?_, byteToHexHigh_upper b, byteToHexLow_upper b, rfl, ?_, rfl⟩
  · simp only [handshakePass]
    rw [if_neg]
    simpa [ACK] using hne
  · rw [handshakeNakFrame, sendNAKMessage, if_neg]
    rw [connectionErrorMessage_length]
    norm_num [MAX_NAK_MESSAGE_LENGTH]
  · rw [connectionErrorMessage_bytes]
    exact ⟨strBytes "\nWhile waiting for connection, ", rfl⟩
  · rw [connectionErrorMessage_bytes]
    rfl
  · simp [handshakePass]

/-- Witness for the amended C8 at stray byte 0x41 with a buffered ACK
behind it (which is discarded, not acted on). -/
theorem C8_witness :
    (0x41 < 256 ∧ (0x41 : Nat) ≠ 0x06) ∧
    handshakePass (0x41 :: [0x06]) =
      ⟨handshakeNakFrame 0x41 ++ waitingBroadcast, false, 1000⟩ ∧
    handshakeNakFrame 0x41 = NAK :: (strBytes (connectionErrorMessage 0x41) ++ [0]) ∧
    isUpperHexDigit (byteToHexHigh 0x41) = true ∧
    isUpperHexDigit (byteToHexLow 0x41) = true := by
  have h := C8_handshake_reject_amended 0x41 (by decide) (by decide) [0x06]
  exact ⟨⟨by decide, by decide⟩, h.1, h.2.1, h.2.2.2.2.1, h.2.2.2.2.2.1⟩
